import Mathlib

/-!
Verification of the plant-disease-diagnosis API (FastAPI + Gemini).
Shallow embedding of `src/main.py` and `src/src/functions.py`:
Python strings and bytes are modelled as `List Char` / `List Nat`,
exceptions as an explicit `PyExc` type, and the external collaborators
(PIL, the Gemini client) as record-valued parameters.
-/

/-- Characters of a string literal, used to write Python string values. -/
def chars (s : String) : List Char := s.data

/-- JSON values as produced by `json.loads` / consumed by `json.dumps`.
Numbers are kept as their source lexeme: no claim inspects numeric values. -/
inductive Json where
  | null
  | bool (b : Bool)
  | num (lexeme : List Char)
  | str (s : List Char)
  | arr (elems : List Json)
  | obj (members : List (List Char × Json))

/-- One escaped character of a JSON string literal, as written by
`json.dumps` (modulo `ensure_ascii`: non-ASCII characters are kept raw,
which parses back to the same value as Python's `\uXXXX` form). -/
def escapeChar (c : Char) : List Char :=
  if c = '"' then ['\\', '"']
  else if c = '\\' then ['\\', '\\']
  else if c = Char.ofNat 10 then ['\\', 'n']
  else if c = Char.ofNat 9 then ['\\', 't']
  else if c = Char.ofNat 13 then ['\\', 'r']
  else [c]

/-- Body of a serialized JSON string (without the surrounding quotes). -/
def escString (s : List Char) : List Char := (s.map escapeChar).flatten

/-- A serialized JSON string literal. -/
def dumpsString (s : List Char) : List Char := '"' :: escString s ++ ['"']

/-- Comma-and-space separated concatenation, as `json.dumps` writes
list elements and object members. -/
def joinComma : List (List Char) → List Char
  | [] => []
  | [x] => x
  | x :: y :: xs => x ++ chars ", " ++ joinComma (y :: xs)

mutual
/-- Serialization of a JSON value, as Python's `json.dumps` writes it
(default separators; see `escapeChar` for the treatment of non-ASCII). -/
def jsonDumps : Json → List Char
  | .null => chars "null"
  | .bool true => chars "true"
  | .bool false => chars "false"
  | .num lx => lx
  | .str s => dumpsString s
  | .arr xs => '[' :: dumpsElems xs ++ [']']
  | .obj ms => '{' :: dumpsMembers ms ++ ['}']

/-- Serialization of the element list of a JSON array. -/
def dumpsElems : List Json → List Char
  | [] => []
  | [x] => jsonDumps x
  | x :: y :: xs => jsonDumps x ++ chars ", " ++ dumpsElems (y :: xs)

/-- Serialization of the member list of a JSON object. -/
def dumpsMembers : List (List Char × Json) → List Char
  | [] => []
  | [(k, v)] => dumpsString k ++ chars ": " ++ jsonDumps v
  | (k, v) :: m :: ms => dumpsString k ++ chars ": " ++ jsonDumps v ++ chars ", " ++ dumpsMembers (m :: ms)
end

/-! ## Python string helpers -/

/-- The (ASCII) whitespace characters stripped by Python's `str.strip()`. -/
def pyIsSpace (c : Char) : Bool :=
  c = ' ' || c = Char.ofNat 9 || c = Char.ofNat 10 || c = Char.ofNat 13 ||
  c = Char.ofNat 11 || c = Char.ofNat 12

/-- Python `s.lstrip()`. -/
def pyLStrip (l : List Char) : List Char := l.dropWhile pyIsSpace

/-- Python `s.rstrip()`. -/
def pyRStrip (l : List Char) : List Char := (l.reverse.dropWhile pyIsSpace).reverse

/-- Python `s.strip()`. -/
def pyStrip (l : List Char) : List Char := pyRStrip (pyLStrip l)

/-- Python slicing `s[:-n]` (drop the last `n` characters). -/
def pyDropRight (n : Nat) (l : List Char) : List Char := l.take (l.length - n)

/-- Python `s.replace(dq, sq)` where `dq` is the double-quote character and
`sq` the single quote (`functions.py` line 108). -/
def pyReplaceQuotes (l : List Char) : List Char :=
  l.map (fun c => if c = '"' then Char.ofNat 39 else c)

/-! ## JSON parsing, as `json.loads` does it -/

/-- The whitespace accepted by the JSON grammar (`json.loads`). -/
def isJsonWs (c : Char) : Bool :=
  c = ' ' || c = Char.ofNat 9 || c = Char.ofNat 10 || c = Char.ofNat 13

/-- Skip JSON whitespace. -/
def skipJsonWs (cs : List Char) : List Char := cs.dropWhile isJsonWs

/-- Value of a single short escape (after a backslash) in a JSON string. -/
def unescapeChar (c : Char) : Option Char :=
  if c = '"' then some '"'
  else if c = '\\' then some '\\'
  else if c = '/' then some '/'
  else if c = 'b' then some (Char.ofNat 8)
  else if c = 'f' then some (Char.ofNat 12)
  else if c = 'n' then some (Char.ofNat 10)
  else if c = 'r' then some (Char.ofNat 13)
  else if c = 't' then some (Char.ofNat 9)
  else none

/-- Value of a hexadecimal digit. -/
def hexVal (c : Char) : Option Nat :=
  if '0' ≤ c ∧ c ≤ '9' then some (c.toNat - 48)
  else if 'a' ≤ c ∧ c ≤ 'f' then some (c.toNat - 87)
  else if 'A' ≤ c ∧ c ≤ 'F' then some (c.toNat - 55)
  else none

/-- Parse the body of a JSON string after the opening quote, returning the
decoded characters and the input after the closing quote.  Strict mode, like
`json.loads`: raw control characters are rejected; `\uXXXX` escapes decoded. -/
def parseStringBody : List Char → Option (List Char × List Char)
  | [] => none
  | c :: rest =>
    if c = '"' then some ([], rest)
    else if c = '\\' then
      match rest with
      | 'u' :: h1 :: h2 :: h3 :: h4 :: rest2 =>
        match hexVal h1, hexVal h2, hexVal h3, hexVal h4 with
        | some a, some b, some d, some e =>
          (parseStringBody rest2).map
            (fun p => (Char.ofNat (((a * 16 + b) * 16 + d) * 16 + e) :: p.1, p.2))
        | _, _, _, _ => none
      | e :: rest2 =>
        match unescapeChar e with
        | some u => (parseStringBody rest2).map (fun p => (u :: p.1, p.2))
        | none => none
      | [] => none
    else if c.toNat < 32 then none
    else (parseStringBody rest).map (fun p => (c :: p.1, p.2))

/-- One or more decimal digits. -/
def digits1 (cs : List Char) : Option (List Char × List Char) :=
  let d := cs.takeWhile Char.isDigit
  if d = [] then none else some (d, cs.dropWhile Char.isDigit)

/-- Integer part of a JSON number (after the optional minus sign):
`0` or a nonzero digit followed by digits, as in the JSON grammar. -/
def parseIntPart : List Char → Option (List Char × List Char)
  | '0' :: rest => if (rest.headD ' ').isDigit then none else some (['0'], rest)
  | cs => if (cs.headD ' ').isDigit then digits1 cs else none

/-- Optional fraction part of a JSON number. -/
def parseFracPart : List Char → Option (List Char × List Char)
  | '.' :: rest => (digits1 rest).map (fun p => ('.' :: p.1, p.2))
  | cs => some ([], cs)

/-- Optional exponent part of a JSON number. -/
def parseExpPart : List Char → Option (List Char × List Char)
  | c :: rest =>
    if c = 'e' || c = 'E' then
      match rest with
      | s :: rest2 =>
        if s = '+' || s = '-' then (digits1 rest2).map (fun p => (c :: s :: p.1, p.2))
        else (digits1 rest).map (fun p => (c :: p.1, p.2))
      | [] => none
    else some ([], c :: rest)
  | [] => some ([], [])

/-- A JSON number lexeme (kept as text: no claim inspects numeric values). -/
def parseNumber (cs : List Char) : Option (List Char × List Char) := do
  let (sign, cs1) := match cs with | '-' :: r => (['-'], r) | _ => ([], cs)
  let (ip, cs2) ← parseIntPart cs1
  let (fp, cs3) ← parseFracPart cs2
  let (ep, cs4) ← parseExpPart cs3
  pure (sign ++ ip ++ fp ++ ep, cs4)

/-- Consume the expected remaining characters of a literal keyword
(`true`/`false`/`null`), yielding the given value. -/
def expectLiteral : List Char → List Char → Json → Option (Json × List Char)
  | [], rest, v => some (v, rest)
  | l :: ls, c :: rest, v => if c = l then expectLiteral ls rest v else none
  | _ :: _, [], _ => none

/-- Member loop of a JSON object (after `\x7b`, when the object is nonempty):
parse `"key": value` pairs separated by commas, up to the closing brace.
`pv` parses one value; `fuel` bounds the number of members. -/
def membersLoop (pv : List Char → Option (Json × List Char)) :
    Nat → List Char → List (List Char × Json) → Option (Json × List Char)
  | 0, _, _ => none
  | fuel + 1, cs, acc =>
    match skipJsonWs cs with
    | [] => none
    | c :: rest =>
      if c = '"' then
        match parseStringBody rest with
        | none => none
        | some (k, r1) =>
          match skipJsonWs r1 with
          | [] => none
          | c2 :: r2 =>
            if c2 = ':' then
              match pv r2 with
              | none => none
              | some (v, r3) =>
                match skipJsonWs r3 with
                | [] => none
                | c3 :: r4 =>
                  if c3 = ',' then membersLoop pv fuel r4 (acc ++ [(k, v)])
                  else if c3 = '}' then some (Json.obj (acc ++ [(k, v)]), r4)
                  else none
            else none
      else none

/-- Element loop of a JSON array (after `[`, when the array is nonempty). -/
def elemsLoop (pv : List Char → Option (Json × List Char)) :
    Nat → List Char → List Json → Option (Json × List Char)
  | 0, _, _ => none
  | fuel + 1, cs, acc =>
    match pv cs with
    | none => none
    | some (v, r1) =>
      match skipJsonWs r1 with
      | [] => none
      | c :: r2 =>
        if c = ',' then elemsLoop pv fuel r2 (acc ++ [v])
        else if c = ']' then some (Json.arr (acc ++ [v]), r2)
        else none

/-- Parse one JSON value (leading whitespace allowed), returning the value
and the rest of the input: an object, array, string, `true`/`false`/`null`
keyword, or number, decided by the first character as `json.loads` does.
Like `json.loads` with its default `parse_constant`, the non-JSON literals
`NaN`, `Infinity` and `-Infinity` are accepted (kept as `num` lexemes).
`fuel` bounds nesting depth and list lengths; `jsonParse` supplies more
than enough. -/
def parseValue : Nat → List Char → Option (Json × List Char)
  | 0, _ => none
  | fuel + 1, cs =>
    match skipJsonWs cs with
    | [] => none
    | c :: rest =>
      if c = '{' then
        match skipJsonWs rest with
        | c2 :: r => if c2 = '}' then some (Json.obj [], r)
                     else membersLoop (parseValue fuel) fuel rest []
        | [] => none
      else if c = '[' then
        match skipJsonWs rest with
        | c2 :: r => if c2 = ']' then some (Json.arr [], r)
                     else elemsLoop (parseValue fuel) fuel rest []
        | [] => none
      else if c = '"' then (parseStringBody rest).map (fun p => (Json.str p.1, p.2))
      else if c = 't' then expectLiteral (chars "rue") rest (Json.bool true)
      else if c = 'f' then expectLiteral (chars "alse") rest (Json.bool false)
      else if c = 'n' then expectLiteral (chars "ull") rest Json.null
      else if c = 'N' then expectLiteral (chars "aN") rest (Json.num (chars "NaN"))
      else if c = 'I' then expectLiteral (chars "nfinity") rest (Json.num (chars "Infinity"))
      else if c = '-' then
        match expectLiteral (chars "Infinity") rest (Json.num (chars "-Infinity")) with
        | some r => some r
        | none => (parseNumber (c :: rest)).map (fun p => (Json.num p.1, p.2))
      else (parseNumber (c :: rest)).map (fun p => (Json.num p.1, p.2))

/-- Python `json.loads`: parse a complete JSON document; trailing whitespace
is allowed, anything else after the value is an error (`None` models a raised
`json.JSONDecodeError`). -/
def jsonParse (cs : List Char) : Option Json :=
  match parseValue (cs.length + 1) cs with
  | some (v, rest) => if skipJsonWs rest = [] then some v else none
  | none => none

/-! ## Python exceptions

The exception classes that can flow through `predict_plant_disease`, with
the class relationships the `except` clauses dispatch on.  In Python,
`json.JSONDecodeError` is a subclass of `ValueError`, while PIL's
`UnidentifiedImageError` (raised by `Image.open` on unrecognizable bytes)
is a subclass of `OSError`, not of `ValueError`. -/

inductive PyExc where
  | valueError (msg : List Char)
  | jsonDecodeError (msg : List Char)
  | httpException (status : Nat) (detail : List Char)
  | unidentifiedImageError (msg : List Char)
  | otherError (clsName : List Char) (msg : List Char)

/-- Whether `except ValueError` catches this exception
(`JSONDecodeError` subclasses `ValueError`). -/
def PyExc.isValueErrorClass : PyExc → Bool
  | .valueError _ => true
  | .jsonDecodeError _ => true
  | _ => false

/-- Whether `except HTTPException` catches this exception. -/
def PyExc.isHTTPExceptionClass : PyExc → Bool
  | .httpException _ _ => true
  | _ => false

/-- Whether the exception is a `json.JSONDecodeError`. -/
def PyExc.isJSONDecodeErrorClass : PyExc → Bool
  | .jsonDecodeError _ => true
  | _ => false

/-- Python `type(e).__name__`. -/
def PyExc.clsNameOf : PyExc → List Char
  | .valueError _ => chars "ValueError"
  | .jsonDecodeError _ => chars "JSONDecodeError"
  | .httpException _ _ => chars "HTTPException"
  | .unidentifiedImageError _ => chars "UnidentifiedImageError"
  | .otherError n _ => n

/-- Python `str(e)`. -/
def PyExc.strOf : PyExc → List Char
  | .valueError m => m
  | .jsonDecodeError m => m
  | .httpException _ d => d
  | .unidentifiedImageError m => m
  | .otherError _ m => m

/-! ## `src/functions.py` -/

/-- The shape the Gemini API expects for an inline image
(the dict built at `functions.py` lines 31-36). -/
structure ImagePart where
  mime_type : List Char
  data : List Nat

/-- A decoded PIL image, abstracted by its observable behaviour here:
`save fmt` either yields the re-encoded bytes for format `fmt` or fails
with the exception PIL raised. -/
structure PILImage where
  save : List Char → Except PyExc (List Nat)

/-- The PIL format string chosen from the MIME type
(`functions.py` lines 15-19: default `JPEG`, overridden for PNG/WEBP). -/
def format_for_mime (mime_type : List Char) : List Char :=
  if mime_type = chars "image/png" then chars "PNG"
  else if mime_type = chars "image/webp" then chars "WEBP"
  else chars "JPEG"

/-- `functions.py` lines 6-37, `image_pil_to_parts`: re-encode the image to
the format implied by `mime_type` and wrap the bytes in a one-element parts
list; any failure in `pil_image.save` is re-raised as a `ValueError` naming
the format.  The returned part carries the caller-supplied `mime_type`. -/
def image_pil_to_parts (pil_image : PILImage)
    (mime_type : List Char := chars "image/jpeg") : Except PyExc (List ImagePart) :=
  let format_type := format_for_mime mime_type
  match pil_image.save format_type with
  | .error _ =>
    .error (.valueError (chars "Não foi possível processar a imagem para o formato " ++ format_type))
  | .ok image_bytes => .ok [{ mime_type := mime_type, data := image_bytes }]

/-- The safety feedback attached to a Gemini response; `block_reason` is
falsy (empty) when nothing was blocked. -/
structure PromptFeedback where
  block_reason : List Char

/-- A response from `model.generate_content`. -/
structure GeminiResponse where
  prompt_feedback : Option PromptFeedback
  text : List Char

/-- The external Gemini model, modelled by the trace of outcomes its
successive `generate_content` calls would produce: each call consumes the
head of `calls` (an `Except` since the call may raise). -/
structure GeminiModel where
  calls : List (Except PyExc GeminiResponse)

/-- One call to `model.generate_content(...)`: consume the next prepared
outcome.  The arguments (prompt and image part) do not influence the
modelled external service.  Calling with an exhausted trace is modelled as
a generic runtime error. -/
def generate_content (model : GeminiModel) (_args : List Char × ImagePart) :
    Except PyExc GeminiResponse × GeminiModel :=
  (model.calls.headD (.error (.otherError (chars "RuntimeError") (chars "no prepared response"))),
   ⟨model.calls.tail⟩)

/-- The Python condition
`response.prompt_feedback and response.prompt_feedback.block_reason`
(`functions.py` line 89). -/
def feedback_blocked (response : GeminiResponse) : Bool :=
  match response.prompt_feedback with
  | some fb => fb.block_reason ≠ []
  | none => false

/-- The dict built at `functions.py` lines 92-97 when Gemini blocked the
content.  Note `sugestoes_tratamento` is a plain string here, not a list. -/
def error_data_blocked (block_reason_msg : List Char) : Json :=
  Json.obj
    [(chars "planta_saudavel", Json.bool false),
     (chars "nome_doenca_praga", Json.str (chars "Bloqueado pela IA")),
     (chars "descricao", Json.str block_reason_msg),
     (chars "sugestoes_tratamento", Json.str (chars "Tente uma imagem ou prompt diferente."))]

/-- The dict built at `functions.py` lines 109-114 when the Gemini call
raised; `error_message_content` is `str(e)` with double quotes already
replaced.  Note `sugestoes_tratamento` is a plain string here, not a list. -/
def error_data_exception (error_message_content : List Char) : Json :=
  Json.obj
    [(chars "planta_saudavel", Json.bool false),
     (chars "nome_doenca_praga", Json.str (chars "Erro na IA")),
     (chars "descricao",
      Json.str (chars "Ocorreu um erro crítico ao comunicar ou processar a resposta da IA: "
                ++ error_message_content)),
     (chars "sugestoes_tratamento",
      Json.str (chars "Por favor, tente novamente mais tarde ou contate o suporte."))]

/-- The fixed prompt of `functions.py` lines 49-75 (the newline-separated
text of the triple-quoted literal; the 8-space indentation of the Python
source lines is elided, and literal braces appear as their hex escapes). -/
def default_prompt : List Char :=
  chars "\nAnalise esta imagem de uma planta. Siga RIGOROSAMENTE as seguintes instruções:\n" ++
  chars "1. Identifique se a planta parece saudável ou se apresenta sinais de alguma doença ou praga.\n" ++
  chars "2. Se uma doença ou praga for identificada:\n" ++
  chars "   a. Forneça o NOME COMUM da doença ou praga.\n" ++
  chars "   b. Descreva BREVEMENTE a doença/praga, focando nos sintomas visíveis na imagem, se houver, e suas possíveis causas.\n" ++
  chars "   c. Forneça SUGESTÕES DE TRATAMENTO DETALHADAS E PRÁTICAS. Para cada sugestão, seja específico. Inclua, quando aplicável e de forma genérica (sem marcas específicas, a menos que seja um componente ativo crucial e amplamente conhecido):\n" ++
  chars "      - Tipos de produtos que podem ser usados (ex: fungicidas à base de cobre, sabão inseticida, óleo de neem, inseticidas sistêmicos específicos para o problema).\n" ++
  chars "      - Técnicas de manejo cultural (ex: rotação de culturas, poda sanitária de partes afetadas, ajuste de irrigação/drenagem, remoção e descarte adequado de material vegetal infectado, solarização do solo).\n" ++
  chars "      - Ações preventivas para evitar futuras infestações ou recorrência da doença.\n" ++
  chars "      - Se possível, indique frequência ou momento ideal para as aplicações ou ações.\n" ++
  chars "3. Se a planta parecer saudável, afirme isso claramente e defina \"nome_doenca_praga\" como \"Nenhuma\", e \"sugestoes_tratamento\" como uma lista vazia ou com uma mensagem de manutenção geral.\n" ++
  chars "4. Se a imagem não for clara o suficiente, não for de uma planta, ou se você não puder fazer uma avaliação confiável, indique isso no campo \"descricao\", defina \"nome_doenca_praga\" como \"Não identificado\", e \"sugestoes_tratamento\" como uma lista vazia.\n" ++
  chars "\nA SUA RESPOSTA DEVE SER APENAS E EXCLUSIVAMENTE UM OBJETO JSON VÁLIDO.\n" ++
  chars "NÃO inclua nenhum texto explicativo, introduções, saudações, ou qualquer caractere antes do '\x7b' inicial ou depois do '\x7d' final do objeto JSON.\n" ++
  chars "O formato JSON OBRIGATÓRIO é:\n" ++
  chars "\x7b\n" ++
  chars "  \"planta_saudavel\": true (booleano, true se saudável, false caso contrário),\n" ++
  chars "  \"nome_doenca_praga\": \"String com o nome da doença/praga\" (use \"Nenhuma\" se saudável, \"Não identificado\" se não for possível determinar),\n" ++
  chars "  \"descricao\": \"String com a descrição detalhada da condição, sintomas, causas, ou motivo da não identificação.\",\n" ++
  chars "  \"sugestoes_tratamento\": [\"Lista de strings, onde CADA STRING é uma ação de tratamento ou manejo distinta, detalhada e prática. Ex: 'Aplicar fungicida à base de cobre a cada 15 dias durante o período chuvoso.', 'Realizar poda de limpeza, removendo todos os galhos secos e doentes e queimando-os.'\"]\n" ++
  chars "\x7d\n" ++
  chars "Certifique-se de que todos os valores de string dentro do JSON estejam entre aspas duplas e que quaisquer aspas duplas dentro dessas strings sejam devidamente escapadas (ex: \\\").\n" ++
  chars "O valor de \"planta_saudavel\" DEVE ser um booleano literal (true ou false, sem aspas).\n" ++
  chars "O valor de \"sugestoes_tratamento\" DEVE ser uma lista de strings.\n"

/-- `functions.py` lines 39-115, `get_gemini_plant_disease_response`:
send the prompt and the first image part to the model.  On a policy block,
return `json.dumps` of the blocked payload; if anything in the `try` block
raises (including `image_parts[0]` on an empty list, and the model call
itself), return `json.dumps` of the error payload built from `str(e)` with
double quotes replaced.  Returns the response text (or fallback JSON text)
together with the advanced model trace. -/
def get_gemini_plant_disease_response (model : GeminiModel)
    (image_parts : List ImagePart) (custom_prompt : Option (List Char) := none) :
    List Char × GeminiModel :=
  let prompt := custom_prompt.getD default_prompt
  match image_parts with
  | [] =>
    -- `image_parts[0]` raises `IndexError("list index out of range")`,
    -- caught by the function's own `except Exception` (no model call made)
    (jsonDumps (error_data_exception (pyReplaceQuotes (chars "list index out of range"))), model)
  | part :: _ =>
    match generate_content model (prompt, part) with
    | (.error e, model') =>
      (jsonDumps (error_data_exception (pyReplaceQuotes e.strOf)), model')
    | (.ok response, model') =>
      if feedback_blocked response then
        (jsonDumps (error_data_blocked
          (chars "Conteúdo bloqueado pelo Gemini. Razão: "
           ++ (response.prompt_feedback.map PromptFeedback.block_reason).getD [])), model')
      else
        (response.text, model')

/-! ## `src/main.py` -/

/-- The response contract validated by FastAPI (`main.py` lines 48-52):
`sugestoes_tratamento` must be a list of strings. -/
structure DiseaseInfo where
  planta_saudavel : Bool
  nome_doenca_praga : List Char
  descricao : List Char
  sugestoes_tratamento : List (List Char)

/-- Lookup in a parsed JSON object, with Python-dict semantics
(`json.loads` lets a later duplicate key override an earlier one). -/
def objGet (members : List (List Char × Json)) (key : List Char) : Option Json :=
  (members.filter (fun kv => kv.1 == key)).getLast?.map (·.2)

/-- A JSON boolean, as pydantic accepts it for a `bool` field. -/
def asBool : Json → Option Bool
  | .bool b => some b
  | _ => none

/-- A JSON string, as pydantic accepts it for a `str` field. -/
def asStr : Json → Option (List Char)
  | .str s => some s
  | _ => none

/-- A JSON array of strings, as pydantic accepts it for a `List[str]`
field; a plain string is not a list and is rejected, never coerced. -/
def asStrList : Json → Option (List (List Char))
  | .arr xs => xs.mapM asStr
  | _ => none

/-- FastAPI's validation of the returned object against
`response_model=DiseaseInfo`: all four fields must be present with the
declared types (extra fields are ignored); `none` models the
`ResponseValidationError` FastAPI raises on mismatch. -/
def validateDiseaseInfo : Json → Option DiseaseInfo
  | .obj ms => do
    let ps ← (objGet ms (chars "planta_saudavel")).bind asBool
    let nome ← (objGet ms (chars "nome_doenca_praga")).bind asStr
    let desc ← (objGet ms (chars "descricao")).bind asStr
    let sug ← (objGet ms (chars "sugestoes_tratamento")).bind asStrList
    pure { planta_saudavel := ps, nome_doenca_praga := nome,
           descricao := desc, sugestoes_tratamento := sug }
  | _ => none

/-- The uploaded file as the handler sees it: the declared content type
(absent when the client sent none) and the outcome of `await file.read()`. -/
structure UploadFile where
  content_type : Option (List Char)
  read : Except PyExc (List Nat)

/-- The handler's external collaborators: `PIL.Image.open` on the uploaded
bytes (which raises `UnidentifiedImageError` on unrecognizable input), and
the configured Gemini model. -/
structure Env where
  imageOpen : List Nat → Except PyExc PILImage
  model : GeminiModel

/-- `main.py` line 77. -/
def allowed_mime_types : List (List Char) :=
  [chars "image/jpeg", chars "image/png", chars "image/webp"]

/-- The Python membership test `file.content_type in allowed_mime_types`
(a missing content type, `None`, is not in the list). -/
def contentTypeAllowed : Option (List Char) → Bool
  | none => false
  | some ct => allowed_mime_types.contains ct

/-- How the f-string at `main.py` line 81 renders the declared content
type: the string itself, or `None` when missing. -/
def shownContentType : Option (List Char) → List Char
  | none => chars "None"
  | some s => s

/-- The 400 detail of `main.py` line 81: an f-string naming the rejected
type and the joined allowed list. -/
def invalidTypeDetail (content_type : Option (List Char)) : List Char :=
  chars "Tipo de arquivo inválido: '" ++ shownContentType content_type ++
  chars "'. Permitidos: image/jpeg, image/png, image/webp"

/-- `main.py` lines 96-101: strip a Markdown code fence before parsing.
`text[len(\"```json\"):-len(\"```\")]` is `pyDropRight 3 (drop 7 ·)`, and
likewise for a bare fence; otherwise just `strip()`. -/
def normalize_gemini_text (t : List Char) : List Char :=
  if (chars "```json").isPrefixOf t then pyStrip (pyDropRight 3 (t.drop 7))
  else if (chars "```").isPrefixOf t then pyStrip (pyDropRight 3 (t.drop 3))
  else pyStrip t

/-- The 502 detail of `main.py` lines 111-114. -/
def badJsonDetail : List Char :=
  chars "A IA não retornou uma resposta JSON válida. Por favor, tente novamente ou ajuste o prompt."

/-- The 500 detail of `main.py` lines 125-128: only the exception's class
name is surfaced, not its message. -/
def unexpectedDetail (clsName : List Char) : List Char :=
  chars "Ocorreu um erro interno inesperado ao processar a imagem: " ++ clsName ++ chars "."

/-- What the body of the handler's `try` statement produces
(`main.py` lines 84-114): either the parsed JSON object the handler
returns, or the exception that escapes the `try` body (the inner
`except json.JSONDecodeError` clause converts a parse failure into an
`HTTPException(502)` which then escapes).  Also returns the model trace
after the run. -/
def predict_try_body (env : Env) (file : UploadFile) :
    Except PyExc Json × GeminiModel :=
  match file.read with
  | .error e => (.error e, env.model)
  | .ok image_bytes_content =>
    match env.imageOpen image_bytes_content with
    | .error e => (.error e, env.model)
    | .ok pil_image =>
      match image_pil_to_parts pil_image (file.content_type.getD []) with
      | .error e => (.error e, env.model)
      | .ok image_parts_for_gemini =>
        let (gemini_response_text, model') :=
          get_gemini_plant_disease_response env.model image_parts_for_gemini none
        let json_str := normalize_gemini_text gemini_response_text
        match jsonParse json_str with
        | some parsed_response_data => (.ok parsed_response_data, model')
        | none => (.error (.httpException 502 badJsonDetail), model')

/-- What the route handler produces: a returned (not yet validated) JSON
object, or an HTTP error response. -/
inductive HandlerResult where
  | returned (data : Json)
  | httpError (status : Nat) (detail : List Char)

/-- The handler's `except` dispatch (`main.py` lines 118-128), in clause
order: `except ValueError` (which in Python also catches
`json.JSONDecodeError`) re-raises as a 400 with `str(ve)`;
`except HTTPException` re-raises it; `except Exception` turns anything
else into a 500 showing only the class name. -/
def dispatch_exception (e : PyExc) : HandlerResult :=
  if e.isValueErrorClass then .httpError 400 e.strOf
  else match e with
    | .httpException s d => .httpError s d
    | _ => .httpError 500 (unexpectedDetail e.clsNameOf)

/-- `main.py` lines 74-131, `predict_plant_disease`: the content-type gate
(raising before the `try` block, so before the file is read or anything
else happens), then the `try` body with its `except` dispatch. -/
def predict_plant_disease (env : Env) (file : UploadFile) :
    HandlerResult × GeminiModel :=
  if ¬ contentTypeAllowed file.content_type then
    (.httpError 400 (invalidTypeDetail file.content_type), env.model)
  else
    match predict_try_body env file with
    | (.ok data, model') => (.returned data, model')
    | (.error e, model') => (dispatch_exception e, model')

/-- The HTTP outcome the client observes. -/
inductive Outcome where
  | success (info : DiseaseInfo)
  | failure (status : Nat) (detail : List Char)

/-- FastAPI's 500 body when the returned object fails response validation
(`ResponseValidationError`, see the comment at `main.py` lines 104-106). -/
def respValidationDetail : List Char := chars "Internal Server Error"

/-- The full `/predict/` pipeline: the handler, then FastAPI's validation
of a returned object against `response_model=DiseaseInfo`; a returned
object that fails validation becomes a 500, an `HTTPException` becomes its
status and detail, a valid object a 200. -/
def predictEndpoint (env : Env) (file : UploadFile) : Outcome × GeminiModel :=
  match predict_plant_disease env file with
  | (.returned data, model') =>
    (match validateDiseaseInfo data with
     | some info => (.success info, model')
     | none => (.failure 500 respValidationDetail, model'))
  | (.httpError s d, model') => (.failure s d, model')

/-- An upload whose bytes are not a recognizable image, declared as JPEG. -/
def corruptUpload : UploadFile :=
  { content_type := some (chars "image/jpeg"), read := .ok [110, 111, 116] }

/-- Environment where `PIL.Image.open` raises `UnidentifiedImageError`, as
Pillow does on bytes it cannot identify — an `OSError` subclass, not a
`ValueError`; the model trace is empty since the model is never reached. -/
def corruptEnv : Env :=
  { imageOpen := fun _ => .error (.unidentifiedImageError (chars "cannot identify image file"))
    model := ⟨[]⟩ }

/-- Environment where the bytes decode to an image but re-encoding
(`pil_image.save`) fails. -/
def reencodeFailEnv : Env :=
  { imageOpen := fun _ =>
      .ok ⟨fun _ => .error (.otherError (chars "OSError") (chars "cannot write mode P as JPEG"))⟩
    model := ⟨[]⟩ }

/-- A character that `json.dumps` writes as itself and that `json.loads`
accepts raw inside a string: not a double quote, not a backslash, not a
control character. -/
def plainChar (c : Char) : Bool :=
  if c = '"' then false
  else if c = '\\' then false
  else if c.toNat < 32 then false
  else true

/-- A JSON value appearing as a field of the fallback payloads: a boolean
or a string of plain characters. -/
def flatOk : Json → Bool
  | .bool _ => true
  | .str s => s.all plainChar
  | _ => false

/-! ## Helper lemmas about Python string operations -/

theorem pyDropRight_append_three (x : List Char) (c₁ c₂ c₃ : Char) :
    pyDropRight 3 (x ++ [c₁, c₂, c₃]) = x := by
  have h : (x ++ [c₁, c₂, c₃]).length - 3 = x.length := by simp
  rw [pyDropRight, h]
  exact List.take_left' rfl

theorem pyStrip_cons_of_space (c : Char) (l : List Char) (h : pyIsSpace c = true) :
    pyStrip (c :: l) = pyStrip l := by
  simp [pyStrip, pyLStrip, List.dropWhile_cons_of_pos, h]

theorem pyRStrip_append_of_space (c : Char) (l : List Char) (h : pyIsSpace c = true) :
    pyRStrip (l ++ [c]) = pyRStrip l := by
  simp [pyRStrip, List.dropWhile_cons_of_pos, h]

theorem pyStrip_append_of_space (c : Char) (l : List Char) (h : pyIsSpace c = true) :
    pyStrip (l ++ [c]) = pyStrip l := by
  rw [pyStrip, pyStrip, pyLStrip, pyLStrip, List.dropWhile_append]
  by_cases h' : (List.dropWhile pyIsSpace l).isEmpty
  · simp only [h', if_true]
    rw [List.isEmpty_iff] at h'
    rw [h']
    simp [List.dropWhile_cons_of_pos, h, pyRStrip]
  · simp only [h', if_false]
    exact pyRStrip_append_of_space c _ h

theorem triple_backtick_prefix_of_json_fence (t : List Char)
    (h : (chars "```json").isPrefixOf t = true) :
    (chars "```").isPrefixOf t = true := by
  rw [List.isPrefixOf_iff_prefix] at h ⊢
  exact List.IsPrefix.trans ⟨chars "json", rfl⟩ h

/-- C9: a response starting with a fence opener has its last three characters
removed unconditionally: for a `\x60\x60\x60json` opener the normalizer yields
`strip(drop the first 7 and the last 3)`, and for a bare `\x60\x60\x60` opener
(not followed by `json`) it yields `strip(drop the first 3 and the last 3)` —
whether or not the text ends with a closing fence, so an unclosed fenced
response loses three characters of payload before JSON parsing. -/
theorem fence_open_always_drops_last_three (p q : List Char)
    (h : (chars "json").isPrefixOf q = false) :
    normalize_gemini_text (chars "```json" ++ p) = pyStrip (pyDropRight 3 p)
    ∧ normalize_gemini_text (chars "```" ++ q) = pyStrip (pyDropRight 3 q) := by
  constructor
  · have h1 : (chars "```json").isPrefixOf (chars "```json" ++ p) = true := by
      rw [List.isPrefixOf_iff_prefix]
      exact ⟨p, rfl⟩
    rw [normalize_gemini_text, h1, if_pos rfl]
    rfl
  · have h1 : (chars "```json").isPrefixOf (chars "```" ++ q) = false := by
      rw [Bool.eq_false_iff]
      intro hc
      rw [List.isPrefixOf_iff_prefix] at hc
      have : (chars "```" ++ chars "json") <+: (chars "```" ++ q) := hc
      rw [List.prefix_append_right_inj] at this
      rw [← List.isPrefixOf_iff_prefix] at this
      simp [this] at h
    have h2 : (chars "```").isPrefixOf (chars "```" ++ q) = true := by
      rw [List.isPrefixOf_iff_prefix]
      exact ⟨q, rfl⟩
    rw [normalize_gemini_text, h1]
    simp only [Bool.false_eq_true, if_false]
    rw [h2, if_pos rfl]
    rfl

theorem fence_open_always_drops_last_three_witness :
    (chars "json").isPrefixOf (chars "\nhello") = false
    ∧ (normalize_gemini_text (chars "```json" ++ chars "\n\x7b\"a\": true\x7d")
        = pyStrip (pyDropRight 3 (chars "\n\x7b\"a\": true\x7d"))
       ∧ normalize_gemini_text (chars "```" ++ chars "\nhello")
        = pyStrip (pyDropRight 3 (chars "\nhello"))) :=
  ⟨by decide, fence_open_always_drops_last_three _ _ (by decide)⟩

/-- C5: wrapping a text that does not itself start with a fence (in
particular, any JSON object text) in a `\x60\x60\x60json` fence — or in a bare
`\x60\x60\x60` fence — makes the normalizer extract exactly what it extracts
for the bare text (whitespace being trimmed before parsing), so both parse to
exactly the same object. -/
theorem fenced_json_normalizes_like_bare (t : List Char)
    (h : (chars "```").isPrefixOf t = false) :
    normalize_gemini_text (chars "```json\n" ++ t ++ chars "\n```") = normalize_gemini_text t
    ∧ normalize_gemini_text (chars "```\n" ++ t ++ chars "\n```") = normalize_gemini_text t
    ∧ normalize_gemini_text t = pyStrip t
    ∧ jsonParse (normalize_gemini_text (chars "```json\n" ++ t ++ chars "\n```"))
      = jsonParse (normalize_gemini_text t) := by
  have hjson : (chars "```json").isPrefixOf t = false := by
    rw [Bool.eq_false_iff]
    intro hc
    rw [triple_backtick_prefix_of_json_fence t hc] at h
    exact absurd h (by decide)
  have hbare : normalize_gemini_text t = pyStrip t := by
    rw [normalize_gemini_text, hjson]
    simp only [Bool.false_eq_true, if_false]
    rw [h]
    simp only [Bool.false_eq_true, if_false]
  have hshape : chars "```json\n" ++ t ++ chars "\n```"
      = chars "```json" ++ (('\n' :: (t ++ ['\n'])) ++ chars "```") := by
    simp only [List.append_assoc, List.cons_append, List.nil_append]
    rfl
  have hfenced : normalize_gemini_text (chars "```json\n" ++ t ++ chars "\n```") = pyStrip t := by
    rw [hshape]
    have h1 : (chars "```json").isPrefixOf
        (chars "```json" ++ (('\n' :: (t ++ ['\n'])) ++ chars "```")) = true := by
      rw [List.isPrefixOf_iff_prefix]
      exact ⟨_, rfl⟩
    rw [normalize_gemini_text, h1, if_pos rfl]
    have hdrop : (chars "```json" ++ (('\n' :: (t ++ ['\n'])) ++ chars "```")).drop 7
        = ('\n' :: (t ++ ['\n'])) ++ ['`', '`', '`'] := rfl
    rw [hdrop, pyDropRight_append_three]
    rw [pyStrip_cons_of_space _ _ (by decide), pyStrip_append_of_space _ _ (by decide)]
  have hshape2 : chars "```\n" ++ t ++ chars "\n```"
      = chars "```" ++ (('\n' :: (t ++ ['\n'])) ++ chars "```") := by
    simp only [List.append_assoc, List.cons_append, List.nil_append]
    rfl
  have hfenced2 : normalize_gemini_text (chars "```\n" ++ t ++ chars "\n```") = pyStrip t := by
    rw [hshape2]
    have h1 : (chars "```json").isPrefixOf
        (chars "```" ++ (('\n' :: (t ++ ['\n'])) ++ chars "```")) = false := rfl
    have h2 : (chars "```").isPrefixOf
        (chars "```" ++ (('\n' :: (t ++ ['\n'])) ++ chars "```")) = true := by
      rw [List.isPrefixOf_iff_prefix]
      exact ⟨_, rfl⟩
    rw [normalize_gemini_text, h1]
    simp only [Bool.false_eq_true, if_false]
    rw [h2, if_pos rfl]
    have hdrop : (chars "```" ++ (('\n' :: (t ++ ['\n'])) ++ chars "```")).drop 3
        = ('\n' :: (t ++ ['\n'])) ++ ['`', '`', '`'] := rfl
    rw [hdrop, pyDropRight_append_three]
    rw [pyStrip_cons_of_space _ _ (by decide), pyStrip_append_of_space _ _ (by decide)]
  refine ⟨by rw [hfenced, hbare], by rw [hfenced2, hbare], hbare, by rw [hfenced, hbare]⟩

theorem fenced_json_normalizes_like_bare_witness :
    (chars "```").isPrefixOf (chars " \x7b\"planta_saudavel\": true\x7d ") = false
    ∧ (normalize_gemini_text (chars "```json\n" ++ chars " \x7b\"planta_saudavel\": true\x7d " ++ chars "\n```")
        = normalize_gemini_text (chars " \x7b\"planta_saudavel\": true\x7d ")
       ∧ jsonParse (normalize_gemini_text (chars " \x7b\"planta_saudavel\": true\x7d "))
        = some (Json.obj [(chars "planta_saudavel", Json.bool true)])) :=
  ⟨by decide,
   (fenced_json_normalizes_like_bare _ (by decide)).1,
   by rw [(fenced_json_normalizes_like_bare _ (by decide)).2.2.1]; rfl⟩

/-- C7: a request whose declared content type is outside the allowed set
(including a missing one) is rejected with a 400 whose detail names the
rejected type and the allowed set; the rejection happens before the file is
read or anything else is done — the outcome is the same whatever the file
bytes or the environment, and the model trace is returned untouched. -/
theorem invalid_content_type_rejected_400_early (env : Env) (file : UploadFile)
    (h : contentTypeAllowed file.content_type = false) :
    predict_plant_disease env file
      = (.httpError 400 (invalidTypeDetail file.content_type), env.model)
    ∧ (∀ (env₂ : Env) (read₂ : Except PyExc (List Nat)),
        predict_plant_disease env₂ { file with read := read₂ }
          = (.httpError 400 (invalidTypeDetail file.content_type), env₂.model))
    ∧ shownContentType file.content_type <:+: invalidTypeDetail file.content_type
    ∧ chars "image/jpeg, image/png, image/webp" <:+: invalidTypeDetail file.content_type := by
  refine ⟨?_, ?_, ?_, ?_⟩
  · rw [predict_plant_disease, if_pos (by simp [h])]
  · intro env₂ read₂
    rw [predict_plant_disease, if_pos (by simp [h])]
  · rw [invalidTypeDetail, List.append_assoc]
    exact List.infix_append' _ _ _
  · rw [invalidTypeDetail]
    have h1 : chars "image/jpeg, image/png, image/webp"
        <:+ chars "'. Permitidos: image/jpeg, image/png, image/webp" :=
      ⟨chars "'. Permitidos: ", rfl⟩
    exact (h1.trans (List.suffix_append _ _)).isInfix

theorem invalid_content_type_rejected_400_early_witness :
    contentTypeAllowed (some (chars "text/plain")) = false
    ∧ predict_plant_disease ⟨fun _ => .error (.valueError []), ⟨[]⟩⟩
        { content_type := some (chars "text/plain"), read := .ok [0] }
      = (.httpError 400 (invalidTypeDetail (some (chars "text/plain"))), ⟨[]⟩)
    ∧ chars "image/jpeg, image/png, image/webp"
      <:+: invalidTypeDetail (some (chars "text/plain")) :=
  ⟨by decide,
   (invalid_content_type_rejected_400_early _ _ (by decide)).1,
   (invalid_content_type_rejected_400_early
     ⟨fun _ => .error (.valueError []), ⟨[]⟩⟩
     { content_type := some (chars "text/plain"), read := .ok [0] } (by decide)).2.2.2⟩

/-- C10: for any `mime_type` other than `image/png` and `image/webp` —
including values outside the endpoint's allowed set, when
`image_pil_to_parts` is called directly — the image is re-encoded as JPEG,
no error is raised for the unrecognized type itself (only a `save` failure
produces the `ValueError`, which names `JPEG`), and a successful result is a
singleton part carrying the caller-supplied `mime_type` unchanged. -/
theorem unrecognized_mime_defaults_to_jpeg (mime : List Char) (pil : PILImage)
    (h1 : mime ≠ chars "image/png") (h2 : mime ≠ chars "image/webp") :
    format_for_mime mime = chars "JPEG"
    ∧ (∀ theBytes : List Nat, pil.save (chars "JPEG") = .ok theBytes →
        image_pil_to_parts pil mime = .ok [{ mime_type := mime, data := theBytes }])
    ∧ (∀ e : PyExc, pil.save (chars "JPEG") = .error e →
        image_pil_to_parts pil mime
          = .error (.valueError (chars "Não foi possível processar a imagem para o formato JPEG"))) := by
  have hf : format_for_mime mime = chars "JPEG" := by
    rw [format_for_mime, if_neg h1, if_neg h2]
  refine ⟨hf, ?_, ?_⟩
  · intro theBytes hs
    simp only [image_pil_to_parts, hf, hs]
  · intro e hs
    simp only [image_pil_to_parts, hf, hs]
    rfl

theorem unrecognized_mime_defaults_to_jpeg_witness :
    (chars "text/plain" ≠ chars "image/png" ∧ chars "text/plain" ≠ chars "image/webp")
    ∧ format_for_mime (chars "text/plain") = chars "JPEG"
    ∧ image_pil_to_parts ⟨fun _ => .ok [9, 9]⟩ (chars "text/plain")
      = .ok [{ mime_type := chars "text/plain", data := [9, 9] }] :=
  ⟨⟨by decide, by decide⟩,
   (unrecognized_mime_defaults_to_jpeg (chars "text/plain") ⟨fun _ => .ok [9, 9]⟩
     (by decide) (by decide)).1,
   (unrecognized_mime_defaults_to_jpeg (chars "text/plain") ⟨fun _ => .ok [9, 9]⟩
     (by decide) (by decide)).2.1 [9, 9] rfl⟩

set_option maxRecDepth 10000 in
/-- C4 (refuted by the code): an allowed-MIME upload whose bytes cannot be
decoded is answered with 500, not 400 — `Image.open` raises
`UnidentifiedImageError`, which `except ValueError` does not catch, so the
generic handler produces the 500 — while a re-encoding failure does take the
`ValueError` path to a 400 carrying the adapter's message. -/
theorem unidentifiable_image_gives_500 :
    (predictEndpoint corruptEnv corruptUpload).1
      = .failure 500 (chars "Ocorreu um erro interno inesperado ao processar a imagem: UnidentifiedImageError.")
    ∧ (predictEndpoint reencodeFailEnv corruptUpload).1
      = .failure 400 (chars "Não foi possível processar a imagem para o formato JPEG") :=
  ⟨rfl, rfl⟩

/-- C8: any exception escaping the handler's `try` body that is not a
`ValueError` (hence not a `json.JSONDecodeError` either, which subclasses
it) and not an `HTTPException` is answered with a 500 whose detail contains
only the exception's class name — the fixed message followed by
`type(e).__name__` and a period — never the exception's message. -/
theorem unexpected_exception_gives_500_class_name_only (env : Env) (file : UploadFile)
    (e : PyExc)
    (h0 : contentTypeAllowed file.content_type = true)
    (h1 : (predict_try_body env file).1 = .error e)
    (h2 : e.isValueErrorClass = false)
    (h3 : e.isHTTPExceptionClass = false)
    (h4 : e.isJSONDecodeErrorClass = false) :
    (predict_plant_disease env file).1 = .httpError 500 (unexpectedDetail e.clsNameOf)
    ∧ unexpectedDetail e.clsNameOf
      = chars "Ocorreu um erro interno inesperado ao processar a imagem: "
        ++ e.clsNameOf ++ chars "." := by
  constructor
  · have hp : predict_try_body env file = (.error e, (predict_try_body env file).2) := by
      rw [← h1]
    rw [predict_plant_disease, if_neg (by simp [h0]), hp]
    cases e with
    | valueError m => simp [PyExc.isValueErrorClass] at h2
    | jsonDecodeError m => simp [PyExc.isValueErrorClass] at h2
    | httpException s d => simp [PyExc.isHTTPExceptionClass] at h3
    | unidentifiedImageError m => rfl
    | otherError n m => rfl
  · rw [unexpectedDetail, List.append_assoc]

theorem unexpected_exception_gives_500_class_name_only_witness :
    (contentTypeAllowed (some (chars "image/jpeg")) = true
     ∧ (predict_try_body ⟨fun _ => .ok ⟨fun _ => .ok []⟩, ⟨[]⟩⟩
          { content_type := some (chars "image/jpeg")
            read := .error (.otherError (chars "RuntimeError") (chars "boom")) }).1
       = .error (.otherError (chars "RuntimeError") (chars "boom")))
    ∧ (predict_plant_disease ⟨fun _ => .ok ⟨fun _ => .ok []⟩, ⟨[]⟩⟩
        { content_type := some (chars "image/jpeg")
          read := .error (.otherError (chars "RuntimeError") (chars "boom")) }).1
      = .httpError 500 (unexpectedDetail (PyExc.otherError (chars "RuntimeError") (chars "boom")).clsNameOf) :=
  ⟨⟨by decide, rfl⟩,
   (unexpected_exception_gives_500_class_name_only
     ⟨fun _ => .ok ⟨fun _ => .ok []⟩, ⟨[]⟩⟩
     { content_type := some (chars "image/jpeg")
       read := .error (.otherError (chars "RuntimeError") (chars "boom")) }
     (.otherError (chars "RuntimeError") (chars "boom"))
     (by decide) rfl rfl rfl rfl).1⟩

/-! ## Running the pipeline up to the model response -/

theorem get_gemini_response_text (model : GeminiModel) (resp : GeminiResponse)
    (rest : List (Except PyExc GeminiResponse)) (part : ImagePart) (parts' : List ImagePart)
    (h : model.calls = .ok resp :: rest) (hb : feedback_blocked resp = false) :
    get_gemini_plant_disease_response model (part :: parts') none = (resp.text, ⟨rest⟩) := by
  simp only [get_gemini_plant_disease_response, generate_content, h, List.headD_cons,
    List.tail_cons, hb, Bool.false_eq_true, if_false]

theorem get_gemini_blocked_text (model : GeminiModel) (resp : GeminiResponse)
    (rest : List (Except PyExc GeminiResponse)) (part : ImagePart) (parts' : List ImagePart)
    (reason : List Char)
    (h : model.calls = .ok resp :: rest)
    (hf : resp.prompt_feedback = some ⟨reason⟩) (hr : reason ≠ []) :
    get_gemini_plant_disease_response model (part :: parts') none
      = (jsonDumps (error_data_blocked
          (chars "Conteúdo bloqueado pelo Gemini. Razão: " ++ reason)), ⟨rest⟩) := by
  have hb : feedback_blocked resp = true := by
    rw [feedback_blocked, hf]
    simpa using hr
  simp only [get_gemini_plant_disease_response, generate_content, h, List.headD_cons,
    List.tail_cons, hb, if_true, hf]
  rfl

theorem get_gemini_exception_text (model : GeminiModel) (e : PyExc)
    (rest : List (Except PyExc GeminiResponse)) (part : ImagePart) (parts' : List ImagePart)
    (h : model.calls = .error e :: rest) :
    get_gemini_plant_disease_response model (part :: parts') none
      = (jsonDumps (error_data_exception (pyReplaceQuotes e.strOf)), ⟨rest⟩) := by
  simp only [get_gemini_plant_disease_response, generate_content, h, List.headD_cons,
    List.tail_cons]

theorem predict_try_body_runs (env : Env) (file : UploadFile) (mime : List Char)
    (theBytes : List Nat) (pil : PILImage) (theData : List Nat)
    (h0 : file.content_type = some mime)
    (h2 : file.read = .ok theBytes)
    (h3 : env.imageOpen theBytes = .ok pil)
    (h4 : pil.save (format_for_mime mime) = .ok theData) :
    predict_try_body env file =
      (let tm := get_gemini_plant_disease_response env.model
         [{ mime_type := mime, data := theData }] none
       match jsonParse (normalize_gemini_text tm.1) with
       | some v => (.ok v, tm.2)
       | none => (.error (.httpException 502 badJsonDetail), tm.2)) := by
  simp only [predict_try_body, h2, h3, h0, Option.getD_some, image_pil_to_parts, h4]

/-- FastAPI rejects a parsed object whose `sugestoes_tratamento` is a JSON
string: a string is not a list, so validation fails. -/
theorem validate_none_of_string_sugestoes (ms : List (List Char × Json)) (s : List Char)
    (h : objGet ms (chars "sugestoes_tratamento") = some (Json.str s)) :
    validateDiseaseInfo (Json.obj ms) = none := by
  simp [validateDiseaseInfo, h, asStrList]

/-- C6 (amended): whenever the model's response text, after fence-stripping
and trimming, is rejected by `json.loads` — which by default also accepts
the non-JSON literals `NaN`, `Infinity` and `-Infinity`, so those do not
take this path — the endpoint answers 502 with the fixed (non-empty)
detail, and exactly one `generate_content` call was consumed from the
model: the upstream call is not retried. -/
theorem unparseable_model_text_gives_502_once (env : Env) (file : UploadFile)
    (mime : List Char) (theBytes : List Nat) (pil : PILImage) (theData : List Nat)
    (resp : GeminiResponse) (rest : List (Except PyExc GeminiResponse))
    (h0 : file.content_type = some mime)
    (h1 : contentTypeAllowed file.content_type = true)
    (h2 : file.read = .ok theBytes)
    (h3 : env.imageOpen theBytes = .ok pil)
    (h4 : pil.save (format_for_mime mime) = .ok theData)
    (h5 : env.model.calls = .ok resp :: rest)
    (h6 : feedback_blocked resp = false)
    (h7 : jsonParse (normalize_gemini_text resp.text) = none) :
    predictEndpoint env file = (.failure 502 badJsonDetail, ⟨rest⟩)
    ∧ badJsonDetail ≠ [] := by
  have htb := predict_try_body_runs env file mime theBytes pil theData h0 h2 h3 h4
  rw [get_gemini_response_text env.model resp rest _ _ h5 h6] at htb
  simp only [h7] at htb
  constructor
  · rw [predictEndpoint, predict_plant_disease, if_neg (by simp [h1]), htb]
    rfl
  · decide

theorem unparseable_model_text_gives_502_once_witness :
    (jsonParse (normalize_gemini_text (chars "I am not JSON")) = none
     ∧ feedback_blocked { prompt_feedback := none, text := chars "I am not JSON" } = false)
    ∧ predictEndpoint
        ⟨fun _ => .ok ⟨fun _ => .ok [3]⟩,
         ⟨[.ok { prompt_feedback := none, text := chars "I am not JSON" }]⟩⟩
        { content_type := some (chars "image/jpeg"), read := .ok [1] }
      = (.failure 502 badJsonDetail, ⟨[]⟩) :=
  ⟨⟨rfl, rfl⟩,
   (unparseable_model_text_gives_502_once
     ⟨fun _ => .ok ⟨fun _ => .ok [3]⟩,
      ⟨[.ok { prompt_feedback := none, text := chars "I am not JSON" }]⟩⟩
     { content_type := some (chars "image/jpeg"), read := .ok [1] }
     (chars "image/jpeg") [1] ⟨fun _ => .ok [3]⟩ [3]
     { prompt_feedback := none, text := chars "I am not JSON" } []
     rfl (by decide) rfl rfl rfl rfl rfl rfl).1⟩

/-! ## Round-tripping the fallback payloads through `json.dumps`/`json.loads`

The two fallback dicts of `functions.py` are flat objects whose strings,
for ordinary block reasons and sanitized error messages, contain no
character that `json.dumps` escapes and no control character.  For such
strings serialization is plain concatenation and parsing it back recovers
exactly the original object. -/

@[simp] theorem chars_colon_space : chars ": " = [':', ' '] := rfl
@[simp] theorem chars_comma_space : chars ", " = [',', ' '] := rfl

theorem plainChar_spec (c : Char) (h : plainChar c = true) :
    ¬ c = '"' ∧ ¬ c = '\\' ∧ ¬ c.toNat < 32 := by
  simp only [plainChar] at h
  split_ifs at h with h1 h2 h3
  exact ⟨h1, h2, h3⟩

theorem escapeChar_plain (c : Char) (h : plainChar c = true) : escapeChar c = [c] := by
  obtain ⟨h1, h2, h3⟩ := plainChar_spec c h
  rw [escapeChar, if_neg h1, if_neg h2,
    if_neg (fun hc => h3 (by rw [hc]; decide)),
    if_neg (fun hc => h3 (by rw [hc]; decide)),
    if_neg (fun hc => h3 (by rw [hc]; decide))]

theorem escString_plain (s : List Char) (h : s.all plainChar = true) : escString s = s := by
  induction s with
  | nil => rfl
  | cons c cs ih =>
    rw [List.all_cons, Bool.and_eq_true] at h
    rw [escString, List.map_cons, List.flatten_cons, escapeChar_plain c h.1]
    rw [escString] at ih
    rw [ih h.2]
    rfl

theorem parseStringBody_plain (s : List Char) (rest : List Char)
    (h : s.all plainChar = true) :
    parseStringBody (s ++ '"' :: rest) = some (s, rest) := by
  induction s with
  | nil =>
    rw [List.nil_append, parseStringBody.eq_def]
    simp
  | cons c cs ih =>
    rw [List.all_cons, Bool.and_eq_true] at h
    obtain ⟨h1, h2, h3⟩ := plainChar_spec c h.1
    rw [List.cons_append, parseStringBody.eq_def]
    simp only [if_neg h1, if_neg h2, if_neg h3]
    rw [ih h.2]
    rfl

theorem skipJsonWs_cons_not_ws (c : Char) (l : List Char) (h : isJsonWs c = false) :
    skipJsonWs (c :: l) = c :: l := by
  simp [skipJsonWs, List.dropWhile_cons_of_neg, h]

theorem skipJsonWs_cons_space (l : List Char) :
    skipJsonWs (' ' :: l) = skipJsonWs l := by
  rw [skipJsonWs, skipJsonWs]
  exact List.dropWhile_cons_of_pos (by decide)

theorem parseValue_flat (v : Json) (hv : flatOk v = true) (g : Nat) (rest : List Char)
    (hg : 1 ≤ g) :
    parseValue g (jsonDumps v ++ rest) = some (v, rest)
    ∧ parseValue g (' ' :: (jsonDumps v ++ rest)) = some (v, rest) := by
  obtain ⟨g', rfl⟩ : ∃ g', g = g' + 1 := ⟨g - 1, by omega⟩
  cases v with
  | bool b =>
    cases b
    · constructor
      · rw [show jsonDumps (Json.bool false) ++ rest = 'f' :: 'a' :: 'l' :: 's' :: 'e' :: rest from rfl,
          parseValue, skipJsonWs_cons_not_ws _ _ (by decide)]
        simp [expectLiteral]
      · rw [show jsonDumps (Json.bool false) ++ rest = 'f' :: 'a' :: 'l' :: 's' :: 'e' :: rest from rfl,
          parseValue, skipJsonWs_cons_space, skipJsonWs_cons_not_ws _ _ (by decide)]
        simp [expectLiteral]
    · constructor
      · rw [show jsonDumps (Json.bool true) ++ rest = 't' :: 'r' :: 'u' :: 'e' :: rest from rfl,
          parseValue, skipJsonWs_cons_not_ws _ _ (by decide)]
        simp [expectLiteral]
      · rw [show jsonDumps (Json.bool true) ++ rest = 't' :: 'r' :: 'u' :: 'e' :: rest from rfl,
          parseValue, skipJsonWs_cons_space, skipJsonWs_cons_not_ws _ _ (by decide)]
        simp [expectLiteral]
  | str s =>
    rw [flatOk] at hv
    have hshape : jsonDumps (Json.str s) ++ rest = '"' :: (s ++ '"' :: rest) := by
      show ('"' :: (escString s ++ ['"'])) ++ rest = _
      rw [escString_plain s hv]
      simp
    rw [hshape]
    constructor
    · rw [parseValue, skipJsonWs_cons_not_ws _ _ (by decide)]
      simp only [reduceIte]
      rw [if_neg (by decide), if_neg (by decide), parseStringBody_plain s rest hv]
      rfl
    · rw [parseValue, skipJsonWs_cons_space, skipJsonWs_cons_not_ws _ _ (by decide)]
      simp only [reduceIte]
      rw [if_neg (by decide), if_neg (by decide), parseStringBody_plain s rest hv]
      rfl
  | null => simp only [show flatOk Json.null = false from rfl] at hv; exact absurd hv (by decide)
  | num lx => simp only [show flatOk (Json.num lx) = false from rfl] at hv; exact absurd hv (by decide)
  | arr xs => simp only [show flatOk (Json.arr xs) = false from rfl] at hv; exact absurd hv (by decide)
  | obj ms => simp only [show flatOk (Json.obj ms) = false from rfl] at hv; exact absurd hv (by decide)

theorem membersLoop_step (pv : List Char → Option (Json × List Char)) (fuel : Nat)
    (k : List Char) (v : Json) (tail2 : List Char) (acc : List (List Char × Json))
    (hk : k.all plainChar = true)
    (hpv2 : pv (' ' :: (jsonDumps v ++ tail2)) = some (v, tail2)) :
    membersLoop pv (fuel + 1) (dumpsString k ++ chars ": " ++ jsonDumps v ++ tail2) acc
      = (match skipJsonWs tail2 with
         | [] => none
         | c3 :: r4 =>
           if c3 = ',' then membersLoop pv fuel r4 (acc ++ [(k, v)])
           else if c3 = '}' then some (Json.obj (acc ++ [(k, v)]), r4)
           else none) := by
  have hshape : dumpsString k ++ chars ": " ++ jsonDumps v ++ tail2
      = '"' :: (k ++ '"' :: ':' :: ' ' :: (jsonDumps v ++ tail2)) := by
    rw [dumpsString, escString_plain k hk]
    simp
  rw [hshape, membersLoop, skipJsonWs_cons_not_ws _ _ (by decide)]
  simp only [reduceIte]
  rw [parseStringBody_plain k _ hk]
  simp only []
  rw [skipJsonWs_cons_not_ws _ _ (by decide)]
  simp only [reduceIte]
  rw [hpv2]

theorem membersLoop_cons_space (pv : List Char → Option (Json × List Char))
    (fuel : Nat) (cs : List Char) (acc : List (List Char × Json)) :
    membersLoop pv fuel (' ' :: cs) acc = membersLoop pv fuel cs acc := by
  cases fuel with
  | zero => rfl
  | succ f => rw [membersLoop, membersLoop, skipJsonWs_cons_space]

theorem membersLoop_dumps (pv : List Char → Option (Json × List Char))
    (hpv : ∀ (v : Json) (r2 : List Char), flatOk v = true →
      pv (' ' :: (jsonDumps v ++ r2)) = some (v, r2)) :
    ∀ (ms : List (List Char × Json)) (fuel : Nat) (acc : List (List Char × Json))
      (rest : List Char),
      ms ≠ [] →
      (∀ kv ∈ ms, kv.1.all plainChar = true ∧ flatOk kv.2 = true) →
      ms.length ≤ fuel →
      membersLoop pv fuel (dumpsMembers ms ++ '}' :: rest) acc
        = some (Json.obj (acc ++ ms), rest) := by
  intro ms
  induction ms with
  | nil => intro fuel acc rest hne; exact absurd rfl hne
  | cons kv tl ih =>
    intro fuel acc rest _ hall hlen
    obtain ⟨f', rfl⟩ : ∃ f', fuel = f' + 1 := ⟨fuel - 1, by simp at hlen; omega⟩
    obtain ⟨k, v⟩ := kv
    have hk := (hall (k, v) (List.mem_cons_self _ _)).1
    have hv := (hall (k, v) (List.mem_cons_self _ _)).2
    cases tl with
    | nil =>
      have hsh : dumpsMembers [(k, v)] ++ '}' :: rest
          = dumpsString k ++ chars ": " ++ jsonDumps v ++ ('}' :: rest) := by
        rw [dumpsMembers]
      rw [hsh, membersLoop_step pv f' k v ('}' :: rest) acc hk (hpv v _ hv)]
      rw [skipJsonWs_cons_not_ws _ _ (by decide)]
      try simp
    | cons kv2 tl2 =>
      have hsh : dumpsMembers ((k, v) :: kv2 :: tl2) ++ '}' :: rest
          = dumpsString k ++ chars ": " ++ jsonDumps v
            ++ (',' :: ' ' :: (dumpsMembers (kv2 :: tl2) ++ '}' :: rest)) := by
        rw [dumpsMembers]
        simp
      rw [hsh, membersLoop_step pv f' k v _ acc hk (hpv v _ hv)]
      rw [skipJsonWs_cons_not_ws _ _ (by decide)]
      simp only [reduceIte]
      rw [membersLoop_cons_space]
      rw [ih f' (acc ++ [(k, v)]) rest (by simp)
        (fun kv h => hall kv (List.mem_cons_of_mem _ h)) (by simp at hlen ⊢; omega)]
      simp

theorem dumpsMembers_len_ge (ms : List (List Char × Json)) :
    ms.length ≤ (dumpsMembers ms).length + 1 := by
  induction ms with
  | nil => simp [dumpsMembers]
  | cons kv tl ih =>
    obtain ⟨k, v⟩ := kv
    cases tl with
    | nil => simp [dumpsMembers]
    | cons kv2 tl2 =>
      rw [dumpsMembers]
      simp only [chars_colon_space, chars_comma_space, dumpsString, List.length_cons,
        List.length_append, List.length_nil] at ih ⊢
      omega

theorem jsonParse_dumps_flat_obj (ms : List (List Char × Json)) (hne : ms ≠ [])
    (hall : ∀ kv ∈ ms, kv.1.all plainChar = true ∧ flatOk kv.2 = true) :
    jsonParse (jsonDumps (Json.obj ms)) = some (Json.obj ms) := by
  have hdump : jsonDumps (Json.obj ms) = '{' :: (dumpsMembers ms ++ ['}']) := by
    simp only [jsonDumps, List.cons_append]
  obtain ⟨L, hL⟩ : ∃ L, (jsonDumps (Json.obj ms)).length = L + 1 :=
    ⟨(dumpsMembers ms ++ ['}']).length, by rw [hdump]; rfl⟩
  have hLge : ms.length ≤ L + 1 := by
    have h1 := dumpsMembers_len_ge ms
    have h2 : (jsonDumps (Json.obj ms)).length = (dumpsMembers ms).length + 2 := by
      rw [hdump]; simp
    omega
  rw [jsonParse, hL, hdump, parseValue, skipJsonWs_cons_not_ws _ _ (by decide)]
  simp only [reduceIte]
  cases ms with
  | nil => exact absurd rfl hne
  | cons kv tl =>
    obtain ⟨k, v⟩ := kv
    obtain ⟨Y, hY⟩ : ∃ Y, dumpsMembers ((k, v) :: tl) = '"' :: Y := by
      cases tl <;> exact ⟨_, rfl⟩
    have hsk : skipJsonWs (dumpsMembers ((k, v) :: tl) ++ ['}']) = '"' :: (Y ++ ['}']) := by
      rw [hY, show ('"' :: Y) ++ ['}'] = '"' :: (Y ++ ['}']) from rfl,
        skipJsonWs_cons_not_ws _ _ (by decide)]
    have hloop := membersLoop_dumps (parseValue (L + 1))
      (fun w r2 hflat => (parseValue_flat w hflat (L + 1) r2 (by omega)).2)
      ((k, v) :: tl) (L + 1) [] [] (by simp) hall hLge
    rw [hsk]
    simp only [reduceIte, if_neg (show ¬('"' = '}') by decide)]
    rw [hloop]
    simp [skipJsonWs]


/-! ## The fallback payloads through the endpoint -/

theorem jsonDumps_obj (ms : List (List Char × Json)) :
    jsonDumps (Json.obj ms) = '{' :: (dumpsMembers ms ++ ['}']) := by
  simp only [jsonDumps, List.cons_append]

theorem pyStrip_braced (X : List Char) :
    pyStrip ('{' :: (X ++ ['}'])) = '{' :: (X ++ ['}']) := by
  rw [pyStrip, pyLStrip, List.dropWhile_cons_of_neg (by decide)]
  rw [pyRStrip]
  rw [show ('{' :: (X ++ ['}'])).reverse = '}' :: (X.reverse ++ ['{']) from by simp]
  rw [List.dropWhile_cons_of_neg (by decide)]
  simp

theorem normalize_braced (X : List Char) :
    normalize_gemini_text ('{' :: (X ++ ['}'])) = '{' :: (X ++ ['}']) := by
  rw [normalize_gemini_text]
  rw [show (chars "```json").isPrefixOf ('{' :: (X ++ ['}'])) = false from rfl]
  rw [show (chars "```").isPrefixOf ('{' :: (X ++ ['}'])) = false from rfl]
  simp only [Bool.false_eq_true, if_false]
  exact pyStrip_braced X

/-- The stripping and fence logic leaves a serialized object untouched. -/
theorem normalize_dumps_obj (ms : List (List Char × Json)) :
    normalize_gemini_text (jsonDumps (Json.obj ms)) = jsonDumps (Json.obj ms) := by
  rw [jsonDumps_obj, normalize_braced]

theorem pyReplaceQuotes_no_dq (l : List Char) : '"' ∉ pyReplaceQuotes l := by
  intro hmem
  rw [pyReplaceQuotes] at hmem
  obtain ⟨c, _, hc⟩ := List.mem_map.mp hmem
  by_cases h : c = '"'
  · rw [if_pos h] at hc
    exact absurd hc (by decide)
  · rw [if_neg h] at hc
    exact h hc

/-- A handler run whose model text is the serialization of an object that
fails response validation produces the 500 of `ResponseValidationError`. -/
theorem predictEndpoint_unvalidatable_payload (env : Env) (file : UploadFile)
    (mime : List Char) (theBytes : List Nat) (pil : PILImage) (theData : List Nat)
    (payloadMs : List (List Char × Json)) (modelAfter : GeminiModel)
    (h0 : file.content_type = some mime)
    (h1 : contentTypeAllowed file.content_type = true)
    (h2 : file.read = .ok theBytes)
    (h3 : env.imageOpen theBytes = .ok pil)
    (h4 : pil.save (format_for_mime mime) = .ok theData)
    (htext : get_gemini_plant_disease_response env.model
        [{ mime_type := mime, data := theData }] none
      = (jsonDumps (Json.obj payloadMs), modelAfter))
    (hparse : jsonParse (jsonDumps (Json.obj payloadMs)) = some (Json.obj payloadMs))
    (hval : validateDiseaseInfo (Json.obj payloadMs) = none) :
    predictEndpoint env file = (.failure 500 respValidationDetail, modelAfter) := by
  have htb := predict_try_body_runs env file mime theBytes pil theData h0 h2 h3 h4
  rw [htext] at htb
  simp only [normalize_dumps_obj, hparse] at htb
  have hpd : predict_plant_disease env file = (.returned (Json.obj payloadMs), modelAfter) := by
    rw [predict_plant_disease, if_neg (by simp [h1]), htb]
  rw [predictEndpoint, hpd]
  simp [hval]

/-- C1 (amended): on a policy block the client does not raise; it returns
`json.dumps` of the blocked payload, whose `planta_saudavel` is `false`,
whose `nome_doenca_praga` is the Portuguese `Bloqueado pela IA` (not
`Blocked by AI`), and whose `descricao` carries the block reason; but its
`sugestoes_tratamento` is a single string, so the object is not
schema-valid as a `DiseaseInfo` and the endpoint answers 500 (response
validation failure), not 200. -/
theorem blocked_feedback_yields_unvalidatable_payload
    (env : Env) (file : UploadFile) (mime : List Char) (theBytes : List Nat)
    (pil : PILImage) (theData : List Nat) (resp : GeminiResponse)
    (rest : List (Except PyExc GeminiResponse)) (reason : List Char)
    (h0 : file.content_type = some mime)
    (h1 : contentTypeAllowed file.content_type = true)
    (h2 : file.read = .ok theBytes)
    (h3 : env.imageOpen theBytes = .ok pil)
    (h4 : pil.save (format_for_mime mime) = .ok theData)
    (h5 : env.model.calls = .ok resp :: rest)
    (hf : resp.prompt_feedback = some ⟨reason⟩)
    (hr : reason ≠ [])
    (hplain : reason.all plainChar = true) :
    get_gemini_plant_disease_response env.model [{ mime_type := mime, data := theData }] none
      = (jsonDumps (error_data_blocked
          (chars "Conteúdo bloqueado pelo Gemini. Razão: " ++ reason)), ⟨rest⟩)
    ∧ jsonParse (jsonDumps (error_data_blocked
        (chars "Conteúdo bloqueado pelo Gemini. Razão: " ++ reason)))
      = some (Json.obj
          [(chars "planta_saudavel", Json.bool false),
           (chars "nome_doenca_praga", Json.str (chars "Bloqueado pela IA")),
           (chars "descricao",
            Json.str (chars "Conteúdo bloqueado pelo Gemini. Razão: " ++ reason)),
           (chars "sugestoes_tratamento",
            Json.str (chars "Tente uma imagem ou prompt diferente."))])
    ∧ reason <:+ chars "Conteúdo bloqueado pelo Gemini. Razão: " ++ reason
    ∧ validateDiseaseInfo (error_data_blocked
        (chars "Conteúdo bloqueado pelo Gemini. Razão: " ++ reason)) = none
    ∧ predictEndpoint env file = (.failure 500 respValidationDetail, ⟨rest⟩) := by
  have hdesc : (chars "Conteúdo bloqueado pelo Gemini. Razão: " ++ reason).all plainChar = true := by
    rw [List.all_append, hplain,
      show (chars "Conteúdo bloqueado pelo Gemini. Razão: ").all plainChar = true from by decide]
    rfl
  have hall : ∀ kv ∈ ([(chars "planta_saudavel", Json.bool false),
           (chars "nome_doenca_praga", Json.str (chars "Bloqueado pela IA")),
           (chars "descricao",
            Json.str (chars "Conteúdo bloqueado pelo Gemini. Razão: " ++ reason)),
           (chars "sugestoes_tratamento",
            Json.str (chars "Tente uma imagem ou prompt diferente."))] :
          List (List Char × Json)),
      kv.1.all plainChar = true ∧ flatOk kv.2 = true := by
    intro kv hkv
    simp only [List.mem_cons, List.not_mem_nil, or_false] at hkv
    rcases hkv with h | h | h | h <;> subst h
    · exact ⟨by decide, rfl⟩
    · exact ⟨by decide, by decide⟩
    · exact ⟨(by decide : (chars "descricao").all plainChar = true), hdesc⟩
    · exact ⟨by decide, by decide⟩
  have htext := get_gemini_blocked_text env.model resp rest
    { mime_type := mime, data := theData } [] reason h5 hf hr
  have hparse := jsonParse_dumps_flat_obj _ (by simp) hall
  have hval : validateDiseaseInfo (error_data_blocked
      (chars "Conteúdo bloqueado pelo Gemini. Razão: " ++ reason)) = none :=
    validate_none_of_string_sugestoes _ (chars "Tente uma imagem ou prompt diferente.") rfl
  refine ⟨htext, hparse, List.suffix_append _ _, hval, ?_⟩
  exact predictEndpoint_unvalidatable_payload env file mime theBytes pil theData _ _
    h0 h1 h2 h3 h4 htext hparse hval

theorem blocked_feedback_yields_unvalidatable_payload_witness :
    ((chars "SAFETY" : List Char) ≠ [] ∧ (chars "SAFETY").all plainChar = true)
    ∧ predictEndpoint
        ⟨fun _ => .ok ⟨fun _ => .ok [7]⟩,
         ⟨[.ok { prompt_feedback := some ⟨chars "SAFETY"⟩, text := chars "x" }]⟩⟩
        { content_type := some (chars "image/jpeg"), read := .ok [1] }
      = (.failure 500 respValidationDetail, ⟨[]⟩) :=
  ⟨⟨by decide, by decide⟩,
   (blocked_feedback_yields_unvalidatable_payload
     ⟨fun _ => .ok ⟨fun _ => .ok [7]⟩,
      ⟨[.ok { prompt_feedback := some ⟨chars "SAFETY"⟩, text := chars "x" }]⟩⟩
     { content_type := some (chars "image/jpeg"), read := .ok [1] }
     (chars "image/jpeg") [1] ⟨fun _ => .ok [7]⟩ [7]
     { prompt_feedback := some ⟨chars "SAFETY"⟩, text := chars "x" } [] (chars "SAFETY")
     rfl (by decide) rfl rfl rfl rfl rfl (by decide) (by decide)).2.2.2.2⟩

set_option maxRecDepth 40000 in
/-- C1 (counterexample): at a concrete blocked request the returned JSON
string parses to an object whose `nome_doenca_praga` is `Bloqueado pela IA`
— not `Blocked by AI` — and the object is not schema-valid (its
`sugestoes_tratamento` is a string), so the endpoint answers 500, not 200. -/
theorem blocked_payload_concrete_behavior :
    (get_gemini_plant_disease_response
        ⟨[.ok { prompt_feedback := some ⟨chars "SAFETY"⟩, text := chars "x" }]⟩
        [{ mime_type := chars "image/jpeg", data := [7] }] none).1
      = chars "\x7b\"planta_saudavel\": false, \"nome_doenca_praga\": \"Bloqueado pela IA\", \"descricao\": \"Conteúdo bloqueado pelo Gemini. Razão: SAFETY\", \"sugestoes_tratamento\": \"Tente uma imagem ou prompt diferente.\"\x7d"
    ∧ jsonParse (chars "\x7b\"planta_saudavel\": false, \"nome_doenca_praga\": \"Bloqueado pela IA\", \"descricao\": \"Conteúdo bloqueado pelo Gemini. Razão: SAFETY\", \"sugestoes_tratamento\": \"Tente uma imagem ou prompt diferente.\"\x7d")
      = some (Json.obj
          [(chars "planta_saudavel", Json.bool false),
           (chars "nome_doenca_praga", Json.str (chars "Bloqueado pela IA")),
           (chars "descricao", Json.str (chars "Conteúdo bloqueado pelo Gemini. Razão: SAFETY")),
           (chars "sugestoes_tratamento", Json.str (chars "Tente uma imagem ou prompt diferente."))])
    ∧ chars "Bloqueado pela IA" ≠ chars "Blocked by AI"
    ∧ validateDiseaseInfo (Json.obj
          [(chars "planta_saudavel", Json.bool false),
           (chars "nome_doenca_praga", Json.str (chars "Bloqueado pela IA")),
           (chars "descricao", Json.str (chars "Conteúdo bloqueado pelo Gemini. Razão: SAFETY")),
           (chars "sugestoes_tratamento", Json.str (chars "Tente uma imagem ou prompt diferente."))])
      = none
    ∧ (predictEndpoint
        ⟨fun _ => .ok ⟨fun _ => .ok [7]⟩,
         ⟨[.ok { prompt_feedback := some ⟨chars "SAFETY"⟩, text := chars "x" }]⟩⟩
        { content_type := some (chars "image/jpeg"), read := .ok [1] }).1
      = .failure 500 respValidationDetail :=
  ⟨rfl, rfl, by decide, rfl, rfl⟩

/-- C2 (amended): when the model call raises, the client does not
propagate the exception; it returns `json.dumps` of the error payload,
whose `planta_saudavel` is `false`, whose `nome_doenca_praga` is the
Portuguese `Erro na IA` (not `AI Error`), and whose `descricao` carries
the exception message with every double quote replaced by a single quote;
but its `sugestoes_tratamento` is a single string, so the object is not
schema-valid as a `DiseaseInfo` and the endpoint answers 500 (response
validation failure), not 200. -/
theorem model_call_failure_yields_unvalidatable_payload
    (env : Env) (file : UploadFile) (mime : List Char) (theBytes : List Nat)
    (pil : PILImage) (theData : List Nat) (e : PyExc)
    (rest : List (Except PyExc GeminiResponse))
    (h0 : file.content_type = some mime)
    (h1 : contentTypeAllowed file.content_type = true)
    (h2 : file.read = .ok theBytes)
    (h3 : env.imageOpen theBytes = .ok pil)
    (h4 : pil.save (format_for_mime mime) = .ok theData)
    (h5 : env.model.calls = .error e :: rest)
    (hplain : (pyReplaceQuotes e.strOf).all plainChar = true) :
    get_gemini_plant_disease_response env.model [{ mime_type := mime, data := theData }] none
      = (jsonDumps (error_data_exception (pyReplaceQuotes e.strOf)), ⟨rest⟩)
    ∧ jsonParse (jsonDumps (error_data_exception (pyReplaceQuotes e.strOf)))
      = some (Json.obj
          [(chars "planta_saudavel", Json.bool false),
           (chars "nome_doenca_praga", Json.str (chars "Erro na IA")),
           (chars "descricao",
            Json.str (chars "Ocorreu um erro crítico ao comunicar ou processar a resposta da IA: "
              ++ pyReplaceQuotes e.strOf)),
           (chars "sugestoes_tratamento",
            Json.str (chars "Por favor, tente novamente mais tarde ou contate o suporte."))])
    ∧ '"' ∉ pyReplaceQuotes e.strOf
    ∧ validateDiseaseInfo (error_data_exception (pyReplaceQuotes e.strOf)) = none
    ∧ predictEndpoint env file = (.failure 500 respValidationDetail, ⟨rest⟩) := by
  have hdesc : (chars "Ocorreu um erro crítico ao comunicar ou processar a resposta da IA: "
      ++ pyReplaceQuotes e.strOf).all plainChar = true := by
    rw [List.all_append, hplain,
      show (chars "Ocorreu um erro crítico ao comunicar ou processar a resposta da IA: ").all plainChar = true
        from by decide]
    rfl
  have hall : ∀ kv ∈ ([(chars "planta_saudavel", Json.bool false),
           (chars "nome_doenca_praga", Json.str (chars "Erro na IA")),
           (chars "descricao",
            Json.str (chars "Ocorreu um erro crítico ao comunicar ou processar a resposta da IA: "
              ++ pyReplaceQuotes e.strOf)),
           (chars "sugestoes_tratamento",
            Json.str (chars "Por favor, tente novamente mais tarde ou contate o suporte."))] :
          List (List Char × Json)),
      kv.1.all plainChar = true ∧ flatOk kv.2 = true := by
    intro kv hkv
    simp only [List.mem_cons, List.not_mem_nil, or_false] at hkv
    rcases hkv with h | h | h | h <;> subst h
    · exact ⟨by decide, rfl⟩
    · exact ⟨by decide, by decide⟩
    · exact ⟨(by decide : (chars "descricao").all plainChar = true), hdesc⟩
    · exact ⟨by decide, by decide⟩
  have htext := get_gemini_exception_text env.model e rest
    { mime_type := mime, data := theData } [] h5
  have hparse := jsonParse_dumps_flat_obj _ (by simp) hall
  have hval : validateDiseaseInfo (error_data_exception (pyReplaceQuotes e.strOf)) = none :=
    validate_none_of_string_sugestoes _
      (chars "Por favor, tente novamente mais tarde ou contate o suporte.") rfl
  refine ⟨htext, hparse, pyReplaceQuotes_no_dq _, hval, ?_⟩
  exact predictEndpoint_unvalidatable_payload env file mime theBytes pil theData _ _
    h0 h1 h2 h3 h4 htext hparse hval

theorem model_call_failure_yields_unvalidatable_payload_witness :
    (pyReplaceQuotes (PyExc.otherError (chars "ConnectionError") (chars "net \"down\"")).strOf).all plainChar = true
    ∧ predictEndpoint
        ⟨fun _ => .ok ⟨fun _ => .ok [7]⟩,
         ⟨[.error (.otherError (chars "ConnectionError") (chars "net \"down\""))]⟩⟩
        { content_type := some (chars "image/jpeg"), read := .ok [1] }
      = (.failure 500 respValidationDetail, ⟨[]⟩) :=
  ⟨by decide,
   (model_call_failure_yields_unvalidatable_payload
     ⟨fun _ => .ok ⟨fun _ => .ok [7]⟩,
      ⟨[.error (.otherError (chars "ConnectionError") (chars "net \"down\""))]⟩⟩
     { content_type := some (chars "image/jpeg"), read := .ok [1] }
     (chars "image/jpeg") [1] ⟨fun _ => .ok [7]⟩ [7]
     (.otherError (chars "ConnectionError") (chars "net \"down\"")) []
     rfl (by decide) rfl rfl rfl rfl (by decide)).2.2.2.2⟩

set_option maxRecDepth 40000 in
/-- C2 (counterexample): at a concrete failing model call the returned JSON
string parses to an object whose `nome_doenca_praga` is `Erro na IA` — not
`AI Error` — with the double quotes of the error message replaced by single
quotes in `descricao`; the object is not schema-valid (its
`sugestoes_tratamento` is a string), so the endpoint answers 500, not 200. -/
theorem model_error_payload_concrete_behavior :
    (get_gemini_plant_disease_response
        ⟨[.error (.otherError (chars "ConnectionError") (chars "net \"down\""))]⟩
        [{ mime_type := chars "image/jpeg", data := [7] }] none).1
      = chars "\x7b\"planta_saudavel\": false, \"nome_doenca_praga\": \"Erro na IA\", \"descricao\": \"Ocorreu um erro crítico ao comunicar ou processar a resposta da IA: net 'down'\", \"sugestoes_tratamento\": \"Por favor, tente novamente mais tarde ou contate o suporte.\"\x7d"
    ∧ jsonParse (chars "\x7b\"planta_saudavel\": false, \"nome_doenca_praga\": \"Erro na IA\", \"descricao\": \"Ocorreu um erro crítico ao comunicar ou processar a resposta da IA: net 'down'\", \"sugestoes_tratamento\": \"Por favor, tente novamente mais tarde ou contate o suporte.\"\x7d")
      = some (Json.obj
          [(chars "planta_saudavel", Json.bool false),
           (chars "nome_doenca_praga", Json.str (chars "Erro na IA")),
           (chars "descricao",
            Json.str (chars "Ocorreu um erro crítico ao comunicar ou processar a resposta da IA: net 'down'")),
           (chars "sugestoes_tratamento",
            Json.str (chars "Por favor, tente novamente mais tarde ou contate o suporte."))])
    ∧ chars "Erro na IA" ≠ chars "AI Error"
    ∧ validateDiseaseInfo (Json.obj
          [(chars "planta_saudavel", Json.bool false),
           (chars "nome_doenca_praga", Json.str (chars "Erro na IA")),
           (chars "descricao",
            Json.str (chars "Ocorreu um erro crítico ao comunicar ou processar a resposta da IA: net 'down'")),
           (chars "sugestoes_tratamento",
            Json.str (chars "Por favor, tente novamente mais tarde ou contate o suporte."))])
      = none
    ∧ (predictEndpoint
        ⟨fun _ => .ok ⟨fun _ => .ok [7]⟩,
         ⟨[.error (.otherError (chars "ConnectionError") (chars "net \"down\""))]⟩⟩
        { content_type := some (chars "image/jpeg"), read := .ok [1] }).1
      = .failure 500 respValidationDetail :=
  ⟨rfl, rfl, by decide, rfl, rfl⟩

set_option maxRecDepth 10000 in
/-- C6 (counterexample): `NaN` is not valid JSON, yet `json.loads` accepts
it by default, so a model response of exactly `NaN` does not reach the 502
branch: the parsed constant fails response validation against
`DiseaseInfo` and the endpoint answers 500 with FastAPI's generic body,
not 502 with the bad-JSON detail. -/
theorem nan_literal_gives_500_not_502 :
    jsonParse (normalize_gemini_text (chars "NaN")) = some (Json.num (chars "NaN"))
    ∧ (predictEndpoint
        ⟨fun _ => .ok ⟨fun _ => .ok [5]⟩,
         ⟨[.ok { prompt_feedback := none, text := chars "NaN" }]⟩⟩
        { content_type := some (chars "image/jpeg"), read := .ok [2] }).1
      = .failure 500 respValidationDetail
    ∧ (Outcome.failure 500 respValidationDetail ≠ Outcome.failure 502 badJsonDetail) :=
  ⟨rfl, rfl, fun h => by injection h with h1 h2; exact absurd h1 (by decide)⟩

/-- C3: whenever the model's response text parses to a JSON object whose
`sugestoes_tratamento` field is a single JSON string, the request fails —
FastAPI's response validation rejects the object and the endpoint produces
a 500, never a 200 carrying that object: the string is not coerced. -/
theorem string_sugestoes_fails_request (env : Env) (file : UploadFile)
    (mime : List Char) (theBytes : List Nat) (pil : PILImage) (theData : List Nat)
    (resp : GeminiResponse) (rest : List (Except PyExc GeminiResponse))
    (ms : List (List Char × Json)) (s : List Char)
    (h0 : file.content_type = some mime)
    (h1 : contentTypeAllowed file.content_type = true)
    (h2 : file.read = .ok theBytes)
    (h3 : env.imageOpen theBytes = .ok pil)
    (h4 : pil.save (format_for_mime mime) = .ok theData)
    (h5 : env.model.calls = .ok resp :: rest)
    (h6 : feedback_blocked resp = false)
    (h7 : jsonParse (normalize_gemini_text resp.text) = some (Json.obj ms))
    (h8 : objGet ms (chars "sugestoes_tratamento") = some (Json.str s)) :
    (predictEndpoint env file).1 = .failure 500 respValidationDetail := by
  have htb := predict_try_body_runs env file mime theBytes pil theData h0 h2 h3 h4
  rw [get_gemini_response_text env.model resp rest _ _ h5 h6] at htb
  simp only [h7] at htb
  have hpd : predict_plant_disease env file = (.returned (Json.obj ms), ⟨rest⟩) := by
    rw [predict_plant_disease, if_neg (by simp [h1]), htb]
  rw [predictEndpoint, hpd]
  simp [validate_none_of_string_sugestoes ms s h8]

theorem string_sugestoes_fails_request_witness :
    (jsonParse (normalize_gemini_text (chars "\x7b\"planta_saudavel\": true, \"nome_doenca_praga\": \"X\", \"descricao\": \"d\", \"sugestoes_tratamento\": \"uma string\"\x7d"))
      = some (Json.obj
          [(chars "planta_saudavel", Json.bool true),
           (chars "nome_doenca_praga", Json.str (chars "X")),
           (chars "descricao", Json.str (chars "d")),
           (chars "sugestoes_tratamento", Json.str (chars "uma string"))]))
    ∧ (predictEndpoint
        ⟨fun _ => .ok ⟨fun _ => .ok [3]⟩,
         ⟨[.ok { prompt_feedback := none
                 text := chars "\x7b\"planta_saudavel\": true, \"nome_doenca_praga\": \"X\", \"descricao\": \"d\", \"sugestoes_tratamento\": \"uma string\"\x7d" }]⟩⟩
        { content_type := some (chars "image/jpeg"), read := .ok [1] }).1
      = .failure 500 respValidationDetail :=
  ⟨rfl,
   string_sugestoes_fails_request
     ⟨fun _ => .ok ⟨fun _ => .ok [3]⟩,
      ⟨[.ok { prompt_feedback := none
              text := chars "\x7b\"planta_saudavel\": true, \"nome_doenca_praga\": \"X\", \"descricao\": \"d\", \"sugestoes_tratamento\": \"uma string\"\x7d" }]⟩⟩
     { content_type := some (chars "image/jpeg"), read := .ok [1] }
     (chars "image/jpeg") [1] ⟨fun _ => .ok [3]⟩ [3]
     { prompt_feedback := none
       text := chars "\x7b\"planta_saudavel\": true, \"nome_doenca_praga\": \"X\", \"descricao\": \"d\", \"sugestoes_tratamento\": \"uma string\"\x7d" } []
     [(chars "planta_saudavel", Json.bool true),
      (chars "nome_doenca_praga", Json.str (chars "X")),
      (chars "descricao", Json.str (chars "d")),
      (chars "sugestoes_tratamento", Json.str (chars "uma string"))]
     (chars "uma string")
     rfl (by decide) rfl rfl rfl rfl rfl rfl rfl⟩




